import Mathlib

/-!
Shallow embedding of the two ETL scripts of the repository:
`backend/src/python/world/fetch_artists_by_country.py` (threaded variant) and
`backend/src/python/world_channels_ID.py` (serial variant).

Strings are manipulated through their underlying character lists so that every
definition is structurally recursive and kernel-reducible.  Machinery from the
Python standard library that the scripts rely on (`urllib.parse.urlparse`,
`str.strip`, `str.split`, `str.lower`, the `in` substring test and the one
regular expression) is modelled explicitly below, following CPython's
behaviour on the inputs these scripts can produce.
-/

namespace HajdeMusic

/-- ASCII lowercase of one character.  Models Python `str.lower` on the ASCII
range; no character outside `A`-`Z` that the scripts compare against is ever
lowercased to an ASCII letter on the inputs of interest. -/
def lowerCh (c : Char) : Char :=
  if 'A' ≤ c ∧ c ≤ 'Z' then Char.ofNat (c.toNat + 32) else c

/-- ASCII uppercase of one character, modelling Python `str.upper` likewise. -/
def upperCh (c : Char) : Char :=
  if 'a' ≤ c ∧ c ≤ 'z' then Char.ofNat (c.toNat - 32) else c

/-- Lowercase a whole character list. -/
def lowerList (l : List Char) : List Char := l.map lowerCh

/-- Python `s.split(sep)` on character lists: splitting the empty string gives
one empty field, and separators at the ends produce empty fields. -/
def pySplitChar (sep : Char) : List Char → List (List Char)
  | [] => [[]]
  | c :: rest =>
    match pySplitChar sep rest with
    | [] => [[]]
    | seg :: segs => if c = sep then [] :: seg :: segs else (c :: seg) :: segs

/-- Strip characters satisfying `p` from both ends, as Python `str.strip`. -/
def pyStripBy (p : Char → Bool) (l : List Char) : List Char :=
  ((l.dropWhile p).reverse.dropWhile p).reverse

/-- Python whitespace for `str.strip()` (ASCII subset; the identifiers and
codes handled by the scripts are ASCII). -/
def isPyWs (c : Char) : Bool :=
  c = ' ' || c = '\t' || c = '\n' || c = '\r' || c = '\x0b' || c = '\x0c'

/-- Whether `pre` is a leading run of `l` (character lists). -/
def isLeadingRun : List Char → List Char → Bool
  | [], _ => true
  | _ :: _, [] => false
  | a :: as, b :: bs => a = b && isLeadingRun as bs

/-- Python substring test `sub in s` on character lists. -/
def containsSub (sub : List Char) : List Char → Bool
  | [] => sub.isEmpty
  | c :: rest => isLeadingRun sub (c :: rest) || containsSub sub rest

/-- Python substring test on strings. -/
def strIn (sub s : String) : Bool := containsSub sub.data s.data

/-- Index of the first element equal to `x`, as Python `list.index` guarded by
the `in` test. -/
def listIndexOf (x : List Char) : List (List Char) → Option Nat
  | [] => none
  | y :: ys => if y = x then some 0 else (listIndexOf x ys).map (· + 1)

/-- Split at the first occurrence of `t`: `some (before, after)` with `t`
removed, or `none` when `t` does not occur. -/
def splitAtFirst (t : Char) : List Char → Option (List Char × List Char)
  | [] => none
  | c :: rest =>
    if c = t then some ([], rest)
    else (splitAtFirst t rest).map (fun p => (c :: p.1, p.2))

/-- Everything before the first occurrence of `t` (the whole list when `t` is
absent), as Python `partition`. -/
def cutAtFirst (t : Char) (l : List Char) : List Char :=
  match splitAtFirst t l with
  | none => l
  | some p => p.1

/-!
Model of `urllib.parse.urlparse` restricted to the two components the scripts
read, `netloc` and `path`, following CPython's `urlsplit`: leading C0-control
and space characters are stripped, tab, CR and LF are removed everywhere, a
syntactically valid scheme is dropped, a `//`-introduced netloc runs to the
first of `/`, `?`, `#`, the fragment and then the query are cut off, and
parameters after `;` are removed from the last path segment.  CPython
validates bracketed (IPv6) hosts with `ipaddress` and raises `ValueError` on
the invalid ones; since no claim concerns IPv6 literals, a netloc containing a
bracket is modelled as the parse-failure outcome (`none`), which the callers
below turn into the empty extraction exactly as their `except` blocks do.
-/

/-- C0 control characters and space (WHATWG strip set). -/
def isC0OrSpace (c : Char) : Bool := c.toNat ≤ 32

/-- The bytes CPython removes from URLs everywhere: tab, CR, LF. -/
def isUnsafeByte (c : Char) : Bool := c = '\t' || c = '\r' || c = '\n'

/-- Characters allowed after the first one in a URL scheme. -/
def isSchemeChar (c : Char) : Bool :=
  c.isAlpha || c.isDigit || c = '+' || c = '-' || c = '.'

/-- Drop a syntactically valid `scheme:` prefix, as CPython `urlsplit`. -/
def dropScheme (l : List Char) : List Char :=
  match splitAtFirst ':' l with
  | none => l
  | some p =>
    match p.1 with
    | [] => l
    | c0 :: cs => if c0.isAlpha && cs.all isSchemeChar then p.2 else l

/-- Split off a `//`-introduced netloc, which runs to the first of `/`, `?`,
`#`. Returns `(netloc, rest)`. -/
def splitNetloc (l : List Char) : List Char × List Char :=
  match l with
  | '/' :: '/' :: rest =>
    let s := rest.span (fun c => !(c = '/' || c = '?' || c = '#'))
    (s.1, s.2)
  | _ => ([], l)

/-- Split a path into the part up to and including the last `/` and the last
segment (which contains no `/`). -/
def lastSegSplit (l : List Char) : List Char × List Char :=
  let seg := (l.reverse.takeWhile (· ≠ '/')).reverse
  (l.take (l.length - seg.length), seg)

/-- Remove `;parameters` from the last path segment, as `urlparse` (via
`_splitparams`) does on top of `urlsplit`. -/
def pySplitparams (p : List Char) : List Char :=
  if p.contains ';' then
    if p.contains '/' then
      let ls := lastSegSplit p
      if ls.2.contains ';' then ls.1 ++ cutAtFirst ';' ls.2 else p
    else cutAtFirst ';' p
  else p

/-- The `(netloc, path)` components of `urllib.parse.urlparse`, or `none` when
CPython would raise (bracketed netloc, see the section comment). -/
def pyUrlparseCh (l : List Char) : Option (List Char × List Char) :=
  let u0 := (l.dropWhile isC0OrSpace).filter (fun c => !isUnsafeByte c)
  let u1 := dropScheme u0
  let nl := splitNetloc u1
  if nl.1.any (fun c => c = '[' || c = ']') then none
  else some (nl.1, pySplitparams (cutAtFirst '?' (cutAtFirst '#' nl.2)))

/-- String-level wrapper for the `urlparse` model. -/
def pyUrlparse (s : String) : Option (List Char × List Char) := pyUrlparseCh s.data

/-- The netloc of a URL under the `urlparse` model (empty on parse failure);
used to talk about the host of a relation's resource URL. -/
def urlHost (s : String) : List Char :=
  match pyUrlparse s with
  | none => []
  | some p => p.1

/-- One character of the class `[0-9A-Za-z_-]` from the channel-id pattern. -/
def isIdChar (c : Char) : Bool := c.isAlpha || c.isDigit || c = '_' || c = '-'

/-- Python `re.match(r"^UC[0-9A-Za-z_-]\x7b20,\x7d$", s)` as a Boolean: the
string is `UC` followed by at least 20 identifier characters; since `$` in
Python also matches just before one final newline, such a trailing newline is
tolerated (it can never arise from the URL parser, which removes LF). -/
def isUCIdCh (l : List Char) : Bool :=
  match l with
  | 'U' :: 'C' :: rest =>
    let core := if rest.getLast? = some '\n' then rest.dropLast else rest
    decide (20 ≤ core.length) && core.all isIdChar
  | _ => false

/-- `parse_youtube_channel_id` of the threaded variant
(`fetch_artists_by_country.py`, lines 129-156): on a non-empty URL that
parses, strip `/` from both ends of the path, split on `/`, and return the
second segment when the first lowercases to `channel` and the second matches
the channel-id pattern; otherwise the empty string. -/
def parse_youtube_channel_id (url : String) : String :=
  if url = "" then ""
  else
    match pyUrlparse url with
    | none => ""
    | some nl =>
      match pySplitChar '/' (pyStripBy (· = '/') nl.2) with
      | p0 :: p1 :: _ =>
        if lowerList p0 = "channel".data ∧ isUCIdCh p1 then String.mk p1 else ""
      | _ => ""

/-- `extract_channel_id` of the serial variant (`world_channels_ID.py`, lines
123-144): split the raw path on `/`; if some segment equals `channel`, return
the segment after its first occurrence (unvalidated, possibly empty); the
`user` and `@handle` branches and every other shape return the empty
string. -/
def extract_channel_id (url : String) : String :=
  if url = "" then ""
  else
    match pyUrlparse url with
    | none => ""
    | some nl =>
      match listIndexOf "channel".data (pySplitChar '/' nl.2) with
      | some idx =>
        match (pySplitChar '/' nl.2).drop (idx + 1) with
        | seg :: _ => String.mk seg
        | [] => ""
      | none => ""

/-- The extractors on an optional input: Python `if not url` treats `None`
like the empty string. -/
def parse_youtube_channel_id_opt : Option String → String
  | none => ""
  | some s => parse_youtube_channel_id s

/-- Serial-variant extractor on an optional input. -/
def extract_channel_id_opt : Option String → String
  | none => ""
  | some s => extract_channel_id s

/-- The positive URL shape in the words of the specification: the path
contains a segment literally equal to `channel` immediately followed by a
segment that starts with the fixed two-letter prefix `UC` and continues with
20 or more characters from letters, digits, underscore, hyphen.  Stated over
the same path model so it can be compared with the extractors above. -/
def specIdPattern (l : List Char) : Bool :=
  match l with
  | 'U' :: 'C' :: rest => decide (20 ≤ rest.length) && rest.all isIdChar
  | _ => false

/-- Scan of the spec shape over consecutive path segments. -/
def specShapeSegs : List (List Char) → Bool
  | a :: b :: rest =>
    (a = "channel".data && specIdPattern b) || specShapeSegs (b :: rest)
  | _ => false

/-- Whether a URL has the spec's recognized positive shape. -/
def spec_positive_shape (url : String) : Bool :=
  match pyUrlparse url with
  | none => false
  | some nl => specShapeSegs (pySplitChar '/' nl.2)

/-- The COUNTRY_NAMES table of the threaded variant. -/
def COUNTRY_NAMES : List (String × String) := [
  ("AF", "Afghanistan"),
  ("AL", "Albania"),
  ("DZ", "Algeria"),
  ("AS", "American Samoa"),
  ("AD", "Andorra"),
  ("AO", "Angola"),
  ("AI", "Anguilla"),
  ("AQ", "Antarctica"),
  ("AG", "Antigua and Barbuda"),
  ("AR", "Argentina"),
  ("AM", "Armenia"),
  ("AW", "Aruba"),
  ("AU", "Australia"),
  ("AT", "Austria"),
  ("AZ", "Azerbaijan"),
  ("BS", "Bahamas"),
  ("BH", "Bahrain"),
  ("BD", "Bangladesh"),
  ("BB", "Barbados"),
  ("BY", "Belarus"),
  ("BE", "Belgium"),
  ("BZ", "Belize"),
  ("BJ", "Benin"),
  ("BM", "Bermuda"),
  ("BT", "Bhutan"),
  ("BO", "Bolivia"),
  ("BA", "Bosnia and Herzegovina"),
  ("BW", "Botswana"),
  ("BR", "Brazil"),
  ("IO", "British Indian Ocean Territory"),
  ("BN", "Brunei Darussalam"),
  ("BG", "Bulgaria"),
  ("BF", "Burkina Faso"),
  ("BI", "Burundi"),
  ("CV", "Cabo Verde"),
  ("KH", "Cambodia"),
  ("CM", "Cameroon"),
  ("CA", "Canada"),
  ("KY", "Cayman Islands"),
  ("CF", "Central African Republic"),
  ("TD", "Chad"),
  ("CL", "Chile"),
  ("CN", "China"),
  ("CX", "Christmas Island"),
  ("CC", "Cocos (Keeling) Islands"),
  ("CO", "Colombia"),
  ("KM", "Comoros"),
  ("CD", "Congo, Democratic Republic of the"),
  ("CG", "Congo"),
  ("CK", "Cook Islands"),
  ("CR", "Costa Rica"),
  ("CI", "Côte d\x27Ivoire"),
  ("HR", "Croatia"),
  ("CU", "Cuba"),
  ("CW", "Curaçao"),
  ("CY", "Cyprus"),
  ("CZ", "Czechia"),
  ("DK", "Denmark"),
  ("DJ", "Djibouti"),
  ("DM", "Dominica"),
  ("DO", "Dominican Republic"),
  ("EC", "Ecuador"),
  ("EG", "Egypt"),
  ("SV", "El Salvador"),
  ("GQ", "Equatorial Guinea"),
  ("ER", "Eritrea"),
  ("EE", "Estonia"),
  ("SZ", "Eswatini"),
  ("ET", "Ethiopia"),
  ("FK", "Falkland Islands"),
  ("FO", "Faroe Islands"),
  ("FJ", "Fiji"),
  ("FI", "Finland"),
  ("FR", "France"),
  ("GF", "French Guiana"),
  ("PF", "French Polynesia"),
  ("GA", "Gabon"),
  ("GM", "Gambia"),
  ("GE", "Georgia"),
  ("DE", "Germany"),
  ("GH", "Ghana"),
  ("GI", "Gibraltar"),
  ("GR", "Greece"),
  ("GL", "Greenland"),
  ("GD", "Grenada"),
  ("GP", "Guadeloupe"),
  ("GU", "Guam"),
  ("GT", "Guatemala"),
  ("GG", "Guernsey"),
  ("GN", "Guinea"),
  ("GW", "Guinea-Bissau"),
  ("GY", "Guyana"),
  ("HT", "Haiti"),
  ("HN", "Honduras"),
  ("HK", "Hong Kong"),
  ("HU", "Hungary"),
  ("IS", "Iceland"),
  ("IN", "India"),
  ("ID", "Indonesia"),
  ("IR", "Iran"),
  ("IQ", "Iraq"),
  ("IE", "Ireland"),
  ("IM", "Isle of Man"),
  ("IL", "Israel"),
  ("IT", "Italy"),
  ("JM", "Jamaica"),
  ("JP", "Japan"),
  ("JE", "Jersey"),
  ("JO", "Jordan"),
  ("KZ", "Kazakhstan"),
  ("KE", "Kenya"),
  ("KI", "Kiribati"),
  ("KP", "Korea, Democratic People\x27s Republic of"),
  ("KR", "Korea, Republic of"),
  ("KW", "Kuwait"),
  ("KG", "Kyrgyzstan"),
  ("LA", "Lao People\x27s Democratic Republic"),
  ("LV", "Latvia"),
  ("LB", "Lebanon"),
  ("LS", "Lesotho"),
  ("LR", "Liberia"),
  ("LY", "Libya"),
  ("LI", "Liechtenstein"),
  ("LT", "Lithuania"),
  ("LU", "Luxembourg"),
  ("MO", "Macao"),
  ("MK", "North Macedonia"),
  ("MG", "Madagascar"),
  ("MW", "Malawi"),
  ("MY", "Malaysia"),
  ("MV", "Maldives"),
  ("ML", "Mali"),
  ("MT", "Malta"),
  ("MH", "Marshall Islands"),
  ("MQ", "Martinique"),
  ("MR", "Mauritania"),
  ("MU", "Mauritius"),
  ("YT", "Mayotte"),
  ("MX", "Mexico"),
  ("FM", "Micronesia"),
  ("MD", "Moldova"),
  ("MC", "Monaco"),
  ("MN", "Mongolia"),
  ("ME", "Montenegro"),
  ("MS", "Montserrat"),
  ("MA", "Morocco"),
  ("MZ", "Mozambique"),
  ("MM", "Myanmar"),
  ("NA", "Namibia"),
  ("NR", "Nauru"),
  ("NP", "Nepal"),
  ("NL", "Netherlands"),
  ("NC", "New Caledonia"),
  ("NZ", "New Zealand"),
  ("NI", "Nicaragua"),
  ("NE", "Niger"),
  ("NG", "Nigeria"),
  ("NU", "Niue"),
  ("NF", "Norfolk Island"),
  ("MP", "Northern Mariana Islands"),
  ("NO", "Norway"),
  ("OM", "Oman"),
  ("PK", "Pakistan"),
  ("PW", "Palau"),
  ("PS", "Palestine"),
  ("PA", "Panama"),
  ("PG", "Papua New Guinea"),
  ("PY", "Paraguay"),
  ("PE", "Peru"),
  ("PH", "Philippines"),
  ("PN", "Pitcairn"),
  ("PL", "Poland"),
  ("PT", "Portugal"),
  ("PR", "Puerto Rico"),
  ("QA", "Qatar"),
  ("RE", "Réunion"),
  ("RO", "Romania"),
  ("RU", "Russian Federation"),
  ("RW", "Rwanda"),
  ("BL", "Saint Barthélemy"),
  ("SH", "Saint Helena, Ascension and Tristan da Cunha"),
  ("KN", "Saint Kitts and Nevis"),
  ("LC", "Saint Lucia"),
  ("MF", "Saint Martin (French part)"),
  ("PM", "Saint Pierre and Miquelon"),
  ("VC", "Saint Vincent and the Grenadines"),
  ("WS", "Samoa"),
  ("SM", "San Marino"),
  ("ST", "Sao Tome and Principe"),
  ("SA", "Saudi Arabia"),
  ("SN", "Senegal"),
  ("RS", "Serbia"),
  ("SC", "Seychelles"),
  ("SL", "Sierra Leone"),
  ("SG", "Singapore"),
  ("SX", "Sint Maarten (Dutch part)"),
  ("SK", "Slovakia"),
  ("SI", "Slovenia"),
  ("SB", "Solomon Islands"),
  ("SO", "Somalia"),
  ("ZA", "South Africa"),
  ("GS", "South Georgia and the South Sandwich Islands"),
  ("SS", "South Sudan"),
  ("ES", "Spain"),
  ("LK", "Sri Lanka"),
  ("SD", "Sudan"),
  ("SR", "Suriname"),
  ("SE", "Sweden"),
  ("CH", "Switzerland"),
  ("SY", "Syrian Arab Republic"),
  ("TW", "Taiwan"),
  ("TJ", "Tajikistan"),
  ("TZ", "Tanzania"),
  ("TH", "Thailand"),
  ("TL", "Timor-Leste"),
  ("TG", "Togo"),
  ("TK", "Tokelau"),
  ("TO", "Tonga"),
  ("TT", "Trinidad and Tobago"),
  ("TN", "Tunisia"),
  ("TR", "Türkiye"),
  ("TM", "Turkmenistan"),
  ("TC", "Turks and Caicos Islands"),
  ("TV", "Tuvalu"),
  ("UG", "Uganda"),
  ("UA", "Ukraine"),
  ("AE", "United Arab Emirates"),
  ("GB", "United Kingdom"),
  ("US", "United States of America"),
  ("UY", "Uruguay"),
  ("UZ", "Uzbekistan"),
  ("VU", "Vanuatu"),
  ("VA", "Holy See"),
  ("VE", "Venezuela"),
  ("VN", "Viet Nam"),
  ("VG", "Virgin Islands (British)"),
  ("VI", "Virgin Islands (U.S.)"),
  ("WF", "Wallis and Futuna"),
  ("EH", "Western Sahara"),
  ("YE", "Yemen"),
  ("ZM", "Zambia"),
  ("ZW", "Zimbabwe")
]

/-- The COUNTRY_MAP table of the serial variant. -/
def COUNTRY_MAP : List (String × String) := [
  ("AF", "Afghanistan"),
  ("AL", "Albania"),
  ("DZ", "Algeria"),
  ("AS", "American Samoa"),
  ("AD", "Andorra"),
  ("AO", "Angola"),
  ("AI", "Anguilla"),
  ("AQ", "Antarctica"),
  ("AG", "Antigua and Barbuda"),
  ("AR", "Argentina"),
  ("AM", "Armenia"),
  ("AW", "Aruba"),
  ("AU", "Australia"),
  ("AT", "Austria"),
  ("AZ", "Azerbaijan"),
  ("BS", "Bahamas"),
  ("BH", "Bahrain"),
  ("BD", "Bangladesh"),
  ("BB", "Barbados"),
  ("BY", "Belarus"),
  ("BE", "Belgium"),
  ("BZ", "Belize"),
  ("BJ", "Benin"),
  ("BM", "Bermuda"),
  ("BT", "Bhutan"),
  ("BO", "Bolivia"),
  ("BA", "Bosnia and Herzegovina"),
  ("BW", "Botswana"),
  ("BR", "Brazil"),
  ("IO", "British Indian Ocean Territory"),
  ("BN", "Brunei Darussalam"),
  ("BG", "Bulgaria"),
  ("BF", "Burkina Faso"),
  ("BI", "Burundi"),
  ("CV", "Cabo Verde"),
  ("KH", "Cambodia"),
  ("CM", "Cameroon"),
  ("CA", "Canada"),
  ("KY", "Cayman Islands"),
  ("CF", "Central African Republic"),
  ("TD", "Chad"),
  ("CL", "Chile"),
  ("CN", "China"),
  ("CX", "Christmas Island"),
  ("CC", "Cocos (Keeling) Islands"),
  ("CO", "Colombia"),
  ("KM", "Comoros"),
  ("CD", "Congo, Democratic Republic of the"),
  ("CG", "Congo"),
  ("CK", "Cook Islands"),
  ("CR", "Costa Rica"),
  ("CI", "Côte d\x27Ivoire"),
  ("HR", "Croatia"),
  ("CU", "Cuba"),
  ("CW", "Curaçao"),
  ("CY", "Cyprus"),
  ("CZ", "Czechia"),
  ("DK", "Denmark"),
  ("DJ", "Djibouti"),
  ("DM", "Dominica"),
  ("DO", "Dominican Republic"),
  ("EC", "Ecuador"),
  ("EG", "Egypt"),
  ("SV", "El Salvador"),
  ("GQ", "Equatorial Guinea"),
  ("ER", "Eritrea"),
  ("EE", "Estonia"),
  ("SZ", "Eswatini"),
  ("ET", "Ethiopia"),
  ("FK", "Falkland Islands"),
  ("FO", "Faroe Islands"),
  ("FJ", "Fiji"),
  ("FI", "Finland"),
  ("FR", "France"),
  ("GF", "French Guiana"),
  ("PF", "French Polynesia"),
  ("GA", "Gabon"),
  ("GM", "Gambia"),
  ("GE", "Georgia"),
  ("DE", "Germany"),
  ("GH", "Ghana"),
  ("GI", "Gibraltar"),
  ("GR", "Greece"),
  ("GL", "Greenland"),
  ("GD", "Grenada"),
  ("GP", "Guadeloupe"),
  ("GU", "Guam"),
  ("GT", "Guatemala"),
  ("GG", "Guernsey"),
  ("GN", "Guinea"),
  ("GW", "Guinea-Bissau"),
  ("GY", "Guyana"),
  ("HT", "Haiti"),
  ("HN", "Honduras"),
  ("HK", "Hong Kong"),
  ("HU", "Hungary"),
  ("IS", "Iceland"),
  ("IN", "India"),
  ("ID", "Indonesia"),
  ("IR", "Iran"),
  ("IQ", "Iraq"),
  ("IE", "Ireland"),
  ("IM", "Isle of Man"),
  ("IL", "Israel"),
  ("IT", "Italy"),
  ("JM", "Jamaica"),
  ("JP", "Japan"),
  ("JE", "Jersey"),
  ("JO", "Jordan"),
  ("KZ", "Kazakhstan"),
  ("KE", "Kenya"),
  ("KI", "Kiribati"),
  ("KP", "Korea, Democratic People\x27s Republic of"),
  ("KR", "Korea, Republic of"),
  ("KW", "Kuwait"),
  ("KG", "Kyrgyzstan"),
  ("LA", "Lao People\x27s Democratic Republic"),
  ("LV", "Latvia"),
  ("LB", "Lebanon"),
  ("LS", "Lesotho"),
  ("LR", "Liberia"),
  ("LY", "Libya"),
  ("LI", "Liechtenstein"),
  ("LT", "Lithuania"),
  ("LU", "Luxembourg"),
  ("MO", "Macao"),
  ("MK", "North Macedonia"),
  ("MG", "Madagascar"),
  ("MW", "Malawi"),
  ("MY", "Malaysia"),
  ("MV", "Maldives"),
  ("ML", "Mali"),
  ("MT", "Malta"),
  ("MH", "Marshall Islands"),
  ("MQ", "Martinique"),
  ("MR", "Mauritania"),
  ("MU", "Mauritius"),
  ("YT", "Mayotte"),
  ("MX", "Mexico"),
  ("FM", "Micronesia, Federated States of"),
  ("MD", "Moldova"),
  ("MC", "Monaco"),
  ("MN", "Mongolia"),
  ("ME", "Montenegro"),
  ("MS", "Montserrat"),
  ("MA", "Morocco"),
  ("MZ", "Mozambique"),
  ("MM", "Myanmar"),
  ("NA", "Namibia"),
  ("NR", "Nauru"),
  ("NP", "Nepal"),
  ("NL", "Netherlands"),
  ("NC", "New Caledonia"),
  ("NZ", "New Zealand"),
  ("NI", "Nicaragua"),
  ("NE", "Niger"),
  ("NG", "Nigeria"),
  ("NU", "Niue"),
  ("NF", "Norfolk Island"),
  ("MP", "Northern Mariana Islands"),
  ("NO", "Norway"),
  ("OM", "Oman"),
  ("PK", "Pakistan"),
  ("PW", "Palau"),
  ("PS", "Palestine, State of"),
  ("PA", "Panama"),
  ("PG", "Papua New Guinea"),
  ("PY", "Paraguay"),
  ("PE", "Peru"),
  ("PH", "Philippines"),
  ("PN", "Pitcairn"),
  ("PL", "Poland"),
  ("PT", "Portugal"),
  ("PR", "Puerto Rico"),
  ("QA", "Qatar"),
  ("RE", "Réunion"),
  ("RO", "Romania"),
  ("RU", "Russian Federation"),
  ("RW", "Rwanda"),
  ("BL", "Saint Barthélemy"),
  ("SH", "Saint Helena, Ascension and Tristan da Cunha"),
  ("KN", "Saint Kitts and Nevis"),
  ("LC", "Saint Lucia"),
  ("MF", "Saint Martin (French part)"),
  ("PM", "Saint Pierre and Miquelon"),
  ("VC", "Saint Vincent and the Grenadines"),
  ("WS", "Samoa"),
  ("SM", "San Marino"),
  ("ST", "Sao Tome and Principe"),
  ("SA", "Saudi Arabia"),
  ("SN", "Senegal"),
  ("RS", "Serbia"),
  ("SC", "Seychelles"),
  ("SL", "Sierra Leone"),
  ("SG", "Singapore"),
  ("SX", "Sint Maarten (Dutch part)"),
  ("SK", "Slovakia"),
  ("SI", "Slovenia"),
  ("SB", "Solomon Islands"),
  ("SO", "Somalia"),
  ("ZA", "South Africa"),
  ("GS", "South Georgia and the South Sandwich Islands"),
  ("SS", "South Sudan"),
  ("ES", "Spain"),
  ("LK", "Sri Lanka"),
  ("SD", "Sudan"),
  ("SR", "Suriname"),
  ("SE", "Sweden"),
  ("CH", "Switzerland"),
  ("SY", "Syrian Arab Republic"),
  ("TW", "Taiwan"),
  ("TJ", "Tajikistan"),
  ("TZ", "Tanzania, United Republic of"),
  ("TH", "Thailand"),
  ("TL", "Timor-Leste"),
  ("TG", "Togo"),
  ("TK", "Tokelau"),
  ("TO", "Tonga"),
  ("TT", "Trinidad and Tobago"),
  ("TN", "Tunisia"),
  ("TR", "Türkiye"),
  ("TM", "Turkmenistan"),
  ("TC", "Turks and Caicos Islands"),
  ("TV", "Tuvalu"),
  ("UG", "Uganda"),
  ("UA", "Ukraine"),
  ("AE", "United Arab Emirates"),
  ("GB", "United Kingdom"),
  ("US", "United States of America"),
  ("UY", "Uruguay"),
  ("UZ", "Uzbekistan"),
  ("VU", "Vanuatu"),
  ("VA", "Holy See"),
  ("VE", "Venezuela"),
  ("VN", "Viet Nam"),
  ("VG", "Virgin Islands (British)"),
  ("VI", "Virgin Islands (U.S.)"),
  ("WF", "Wallis and Futuna"),
  ("EH", "Western Sahara"),
  ("YE", "Yemen"),
  ("ZM", "Zambia"),
  ("ZW", "Zimbabwe")
]

/-- Lookup in an association-list table with a default, as Python
`dict.get(k, default)`. -/
def lookupMap (m : List (String × String)) (k dflt : String) : String :=
  match m.find? (fun p => p.1 = k) with
  | none => dflt
  | some p => p.2

/-- ASCII-uppercase a whole string (Python `str.upper` on the country codes,
which are ASCII). -/
def pyUpperStr (s : String) : String := String.mk (s.data.map upperCh)

/-- `country_full_name` of the threaded variant (lines 113-116): empty code
maps to the empty string, otherwise the table entry for the uppercased code,
falling back to the code itself. -/
def country_full_name (code : String) : String :=
  if code = "" then "" else lookupMap COUNTRY_NAMES (pyUpperStr code) code

/-- The constant `MAX_RETRIES` of the threaded variant. -/
def MAX_RETRIES : Nat := 3

/-- The JSON body `safe_request` hands back: its truthiness under Python
`if not data` (an empty JSON object is falsy) and the value of its
`relations` key, each relation abstracted to the optional string
`rel["url"]["resource"]` (`none` when the relation has no `url` key or the
`url` object has no `resource`; an explicitly empty resource is `some ""`,
which every consumer treats like an absent one). -/
structure MBJson where
  truthy : Bool
  relations : List (Option String)
deriving DecidableEq, Repr

/-- Outcome of one HTTP attempt inside `safe_request`: a parsed 2xx body, a
503 status, or any other failure (network error, timeout, non-2xx raised by
`raise_for_status`, JSON decode error) — the code treats the last group
uniformly in its `except` branch. -/
inductive HttpResult where
  | success : MBJson → HttpResult
  | busy503 : HttpResult
  | failure : HttpResult
deriving DecidableEq, Repr

/-- The retry loop of `safe_request` (lines 159-181): `n` remaining attempts,
`i` the index of the next attempt in the environment `resp`; returns the
result together with the number of attempts actually made.  A 503 and any
other failure both fall through to the next attempt (after their respective
sleeps, which have no functional effect); exhaustion yields `none`. -/
def safe_request_loop (resp : Nat → HttpResult) : Nat → Nat → Option MBJson × Nat
  | 0, i => (none, i)
  | n + 1, i =>
    match resp i with
    | .success d => (some d, i + 1)
    | .busy503 => safe_request_loop resp n (i + 1)
    | .failure => safe_request_loop resp n (i + 1)

/-- `safe_request` against an environment assigning each attempt its outcome:
the value returned to the caller.  The Python function catches every
exception inside the loop, so it is total. -/
def safe_request (resp : Nat → HttpResult) : Option MBJson :=
  (safe_request_loop resp MAX_RETRIES 0).1

/-- Number of HTTP attempts `safe_request` makes against `resp`. -/
def safe_request_attempts (resp : Nat → HttpResult) : Nat :=
  (safe_request_loop resp MAX_RETRIES 0).2

/-- The relation test of the threaded scan (lines 206-216): the relation has a
non-empty resource whose lowercased text contains one of the three platform
markers as a substring. -/
def rel_matches : Option String → Bool
  | none => false
  | some r =>
    !(r = "") &&
      (let low := lowerList r.data
       containsSub "youtube.com".data low || containsSub "youtu.be".data low ||
         containsSub "music.youtube.com".data low)

/-- The scan over `relations` in `fetch_for_artist`: the first matching
resource in list order (the `break` stops the loop), or the empty string. -/
def select_youtube_url : List (Option String) → String
  | [] => ""
  | none :: rest => select_youtube_url rest
  | some r :: rest => if rel_matches (some r) then r else select_youtube_url rest

/-- One input record of the threaded variant. -/
structure ArtistRecord where
  mbid : String
  name : String
  country_code : String
  country_name : String
deriving DecidableEq, Repr

/-- One output record of the threaded variant. -/
structure EnrichedRecord where
  mbid : String
  name : String
  country_code : String
  country_name : String
  youtube_url : String
  channel_id : String
deriving DecidableEq, Repr

/-- `fetch_for_artist` (lines 184-230) against an environment of HTTP attempt
outcomes: run `safe_request`; a missing or falsy JSON body yields `None`; scan
the relations for the first platform URL; without one yield `None`; otherwise
build the output record, copying the four input fields and attaching the URL
and whatever `parse_youtube_channel_id` extracted (possibly empty — the code
performs no check on `channel_id`). -/
def fetch_for_artist (record : ArtistRecord) (resp : Nat → HttpResult) :
    Option EnrichedRecord :=
  match safe_request resp with
  | none => none
  | some data =>
    if data.truthy = false then none
    else if select_youtube_url data.relations = "" then none
    else
      some ⟨record.mbid, record.name, record.country_code, record.country_name,
        select_youtube_url data.relations,
        parse_youtube_channel_id (select_youtube_url data.relations)⟩

/-- One row of a tabular input file of the threaded variant.  Each field holds
the value of `str(row.get(col) or "")` for the selected column, i.e. the
already-stringified cell (missing cell and `None` surface as `""`; a pandas
`NaN` cell surfaces as the string `nan`, which the embedding's caller may
supply literally). -/
structure RawRow where
  mbid : String
  name : String
  country : String
deriving DecidableEq, Repr

/-- One input file as `load_all_artists` sees it: whether it is a regular file
with a recognized extension, whether the read succeeded (a failed read is
logged and the file skipped), which of the three column lookups found a
column, and the rows with their selected cells.  The alias resolution of
`find_col` is name-level glue and is abstracted to these Booleans. -/
structure FileData where
  eligible : Bool
  readable : Bool
  hasMbidCol : Bool
  hasNameCol : Bool
  hasCountryCol : Bool
  rows : List RawRow
deriving DecidableEq, Repr

/-- The per-row body of the load loop (lines 278-291): strip the cells, skip
the row when the identifier is empty or shorter than 5 characters, otherwise
build the record with the derived country name. -/
def parseRow (hasCountry : Bool) (row : RawRow) : Option ArtistRecord :=
  if String.mk (pyStripBy isPyWs row.mbid.data) = "" ∨
      (String.mk (pyStripBy isPyWs row.mbid.data)).length < 5 then none
  else
    some ⟨String.mk (pyStripBy isPyWs row.mbid.data),
      String.mk (pyStripBy isPyWs row.name.data),
      if hasCountry then String.mk (pyStripBy isPyWs row.country.data) else "",
      country_full_name
        (if hasCountry then String.mk (pyStripBy isPyWs row.country.data) else "")⟩

/-- Records contributed by one file: none when the file is skipped (not a
regular file with a recognized extension, unreadable, or lacking an
identifier or name column — each skip is logged and the loop continues), the
parsed rows otherwise. -/
def fileRecords (f : FileData) : List ArtistRecord :=
  if f.eligible && f.readable && f.hasMbidCol && f.hasNameCol then
    f.rows.filterMap (parseRow f.hasCountryCol)
  else []

/-- One step of the deduplication dict (lines 293-296): Python dict assignment
keeps the first-insertion position of an existing key and replaces its value,
and appends a new key at the end. -/
def dictUpsert (d : List ArtistRecord) (r : ArtistRecord) : List ArtistRecord :=
  if d.any (fun x => x.mbid = r.mbid) then
    d.map (fun x => if x.mbid = r.mbid then r else x)
  else d ++ [r]

/-- The deduplication pass over all loaded records. -/
def dedupByMbid (rs : List ArtistRecord) : List ArtistRecord :=
  rs.foldl dictUpsert []

/-- The record list `load_all_artists` returns once the folder exists: every
file's contribution in directory order, deduplicated by identifier. -/
def loaded_records (files : List FileData) : List ArtistRecord :=
  dedupByMbid (files.flatMap fileRecords)

/-- `load_all_artists` (lines 237-299) over an environment: the missing-folder
check raises `RuntimeError` (the only uncaught exception of the load phase),
everything else degrades to per-file skips. -/
def load_all_artists (folder_exists : Bool) (files : List FileData) :
    Except String (List ArtistRecord) :=
  if folder_exists then .ok (loaded_records files) else .error "WORLD_FOLDER ne postoji"

/-- The reasons the threaded run can stop with an uncaught exception. -/
inductive Abort where
  | folderMissing : Abort
  | outputWriteFailed : Abort
deriving DecidableEq, Repr

/-- The header row the threaded variant writes (line 339). -/
def csv_header : List String :=
  ["mbid", "name", "country_code", "country_name", "youtube_url", "channel_id"]

/-- The CSV row written for one enriched record (lines 341-348). -/
def enriched_to_row (r : EnrichedRecord) : List String :=
  [r.mbid, r.name, r.country_code, r.country_name, r.youtube_url, r.channel_id]

/-- The enrichment outcomes the threaded main collects: every record whose
`fetch_for_artist` returned a (truthy, hence non-empty) dict.  Completion
order of the worker pool is modelled as submission order; the claims proved
about the driver are order-independent. -/
def enrich_results (files : List FileData) (net : String → Nat → HttpResult) :
    List EnrichedRecord :=
  (loaded_records files).filterMap (fun r => fetch_for_artist r (net r.mbid))

/-- `main` of the threaded variant (lines 306-351) over an environment:
`folder_exists` feeds the load phase, `net` assigns each identifier its HTTP
attempt outcomes, and `write_ok` tells whether opening and writing the output
CSV succeeds (the `with open(...)` block is not guarded by any handler, so a
write failure propagates).  The value `.ok none` means the run finished
without touching the output file; `.ok (some rows)` means exactly `rows`
(header first) were written. -/
def main_threaded (folder_exists : Bool) (files : List FileData)
    (net : String → Nat → HttpResult) (write_ok : Bool) :
    Except Abort (Option (List (List String))) :=
  match load_all_artists folder_exists files with
  | .error _ => .error .folderMissing
  | .ok records =>
    if records = [] then .ok none
    else
      let results := records.filterMap (fun r => fetch_for_artist r (net r.mbid))
      if results = [] then .ok none
      else if write_ok then .ok (some (csv_header :: results.map enriched_to_row))
      else .error .outputWriteFailed

/-- The scan loop of `fetch_youtube_using_mbid` in the serial variant (lines
155-158): for the first relation whose resource contains `youtube.com`
(case-sensitive, tested on the raw string), return `extract_channel_id` of
that resource and stop; otherwise continue, and return the empty string when
no relation matches.  An absent `url`/`resource` yields the empty link, which
never matches. -/
def fetch_youtube_scan : List (Option String) → String
  | [] => ""
  | none :: rest => fetch_youtube_scan rest
  | some link :: rest =>
    if containsSub "youtube.com".data link.data then extract_channel_id link
    else fetch_youtube_scan rest

/-- The serial scan's per-relation test: the resource string contains
`youtube.com` as a substring (case-sensitive; an absent resource is the empty
link, which never contains it). -/
def serial_link_matches : Option String → Bool
  | none => false
  | some link => containsSub "youtube.com".data link.data

/-- `fetch_youtube_using_mbid` (lines 147-163) over the response for one
identifier: `none` models any exception of the request (caught, logged and
turned into the empty string), `some rels` a parsed body with its relations
list. -/
def fetch_youtube_using_mbid (resp : Option (List (Option String))) : String :=
  match resp with
  | none => ""
  | some rels => fetch_youtube_scan rels

/-- Python `a or b` on an optional cell: an absent or empty value falls
through to the alternative. -/
def pyOr (a : Option String) (b : String) : String :=
  match a with
  | none => b
  | some s => if s = "" then b else s

/-- One row of a serial-variant CSV file: the raw cells `row.get("name")`,
`row.get("MBID")`, `row.get("mbid")` (absent keys are `none`) and the
stringified country cell `str(row.get("country", ""))`. -/
structure SerialRow where
  name : Option String
  mbidU : Option String
  mbidL : Option String
  country : String
deriving DecidableEq, Repr

/-- The identifier a serial row resolves to:
`row.get("MBID") or row.get("mbid") or ""`. -/
def serial_mbid (row : SerialRow) : String := pyOr row.mbidU (pyOr row.mbidL "")

/-- The payload the serial variant sends to the hosted sink (lines 235-241). -/
structure SerialPayload where
  name : Option String
  mbid : String
  youtube_channel_id : String
  country_code : String
  country_name : String
deriving DecidableEq, Repr

/-- The per-row body of the serial main loop (lines 218-244): skip the row
when the resolved identifier is empty (the `pd.isna` disjunct concerns `NaN`
cells, which this embedding's rows surface as absent keys); otherwise fetch,
then skip when no channel identifier came back, else build the payload with
the uppercased country code and its map lookup.  The sink call cannot affect
this outcome: `supabase_insert` swallows every failure. -/
def serial_row_process (net : String → Option (List (Option String)))
    (row : SerialRow) : Option SerialPayload :=
  if serial_mbid row = "" then none
  else if fetch_youtube_using_mbid (net (serial_mbid row)) = "" then none
  else
    some ⟨row.name, serial_mbid row,
      fetch_youtube_using_mbid (net (serial_mbid row)), pyUpperStr row.country,
      lookupMap COUNTRY_MAP (pyUpperStr row.country) (pyUpperStr row.country)⟩

/-- One CSV file of the serial variant (already past the
`artists_*.csv` name filter): whether `pd.read_csv` succeeded (a failure is
logged and the file skipped) and its rows. -/
structure SerialFile where
  readable : Bool
  rows : List SerialRow
deriving DecidableEq, Repr

/-- The payloads one serial file contributes: none when unreadable. -/
def serial_file_payloads (net : String → Option (List (Option String)))
    (f : SerialFile) : List SerialPayload :=
  if f.readable then f.rows.filterMap (serial_row_process net) else []

/-- `main` of the serial variant (lines 187-249) over an environment: `none`
models the immediate return when the folder is missing; otherwise the run
always completes, yielding the sink payloads in order together with the
printed `total_processed` count.  (An empty file list returns early in the
code, which coincides with processing no files.) -/
def main_serial (folder_exists : Bool) (files : List SerialFile)
    (net : String → Option (List (Option String))) :
    Option (List SerialPayload × Nat) :=
  if folder_exists then
    let payloads := files.flatMap (serial_file_payloads net)
    some (payloads, payloads.length)
  else none

/-- The invariant of the dedup dict: its keys are pairwise distinct. -/
def keysNodup (d : List ArtistRecord) : Prop :=
  (d.map (fun r => r.mbid)).Nodup

/-- Whether the threaded run stopped with an uncaught exception. -/
def run_aborts (r : Except Abort (Option (List (List String)))) : Bool :=
  match r with
  | .error _ => true
  | .ok _ => false

/-! Helper lemmas. -/

/-- A string built from a character list is empty exactly when the list is. -/
lemma strMk_eq_empty_iff (l : List Char) : String.mk l = "" ↔ l = [] := by
  constructor
  · intro h
    have : (String.mk l).data = ("" : String).data := by rw [h]
    simpa using this
  · intro h
    rw [h]

/-- A list matching the channel-id pattern is non-empty. -/
lemma isUCIdCh_ne_nil {l : List Char} (h : isUCIdCh l = true) : l ≠ [] := by
  intro hl
  subst hl
  simp [isUCIdCh] at h

/-- Claim C3: when every one of the `MAX_RETRIES` attempts fails (a 503 or any
other error), `safe_request` makes exactly the attempt cap of three attempts,
returns the no-data value `none`, and — being a total function whose attempt
failures are values, exactly as the Python `except` catches every exception in
the loop body — propagates no exception to its caller. -/
theorem safe_request_exhaustion (resp : Nat → HttpResult)
    (h : ∀ i, i < MAX_RETRIES → resp i = .busy503 ∨ resp i = .failure) :
    safe_request resp = none ∧ safe_request_attempts resp = MAX_RETRIES ∧
      MAX_RETRIES = 3 := by
  have h0 := h 0 (by norm_num [MAX_RETRIES])
  have h1 := h 1 (by norm_num [MAX_RETRIES])
  have h2 := h 2 (by norm_num [MAX_RETRIES])
  have key : safe_request_loop resp MAX_RETRIES 0 = (none, 3) := by
    rcases h0 with h0 | h0 <;> rcases h1 with h1 | h1 <;> rcases h2 with h2 | h2 <;>
      simp [MAX_RETRIES, safe_request_loop, h0, h1, h2]
  refine ⟨?_, ?_, rfl⟩
  · unfold safe_request
    rw [key]
  · unfold safe_request_attempts
    rw [key]
    rfl

/-- Witness for C3: the always-busy endpoint. -/
theorem safe_request_exhaustion_witness :
    safe_request (fun _ => .busy503) = none ∧
      safe_request_attempts (fun _ => .busy503) = MAX_RETRIES ∧ MAX_RETRIES = 3 :=
  safe_request_exhaustion (fun _ => .busy503) (fun _ _ => Or.inl rfl)

/-- Claim C6: the extractors are total by construction (every Python exception
path is a value here, mirroring the `except` handlers), are pure Lean
functions, and return the empty string on every degenerate input: `None`, the
empty string, and any URL on which the parser fails. -/
theorem extractors_total_on_degenerate_inputs (u : Option String)
    (h : u = none ∨ u = some "" ∨ ∃ s, u = some s ∧ pyUrlparse s = none) :
    extract_channel_id_opt u = "" ∧ parse_youtube_channel_id_opt u = "" := by
  rcases h with rfl | rfl | ⟨s, rfl, hs⟩
  · exact ⟨rfl, rfl⟩
  · exact ⟨rfl, rfl⟩
  · constructor
    · show extract_channel_id s = ""
      unfold extract_channel_id
      split
      · rfl
      · rw [hs]
    · show parse_youtube_channel_id s = ""
      unfold parse_youtube_channel_id
      split
      · rfl
      · rw [hs]

/-- Witness for C6: an unparsable URL (mismatched bracket in the netloc, on
which CPython's `urlparse` raises `ValueError`). -/
theorem extractors_total_witness :
    extract_channel_id_opt (some "http://[bad") = "" ∧
      parse_youtube_channel_id_opt (some "http://[bad") = "" :=
  extractors_total_on_degenerate_inputs (some "http://[bad")
    (Or.inr (Or.inr ⟨"http://[bad", rfl, by decide⟩))

/-- Claim C9: whenever the enricher produces an output record, its `mbid`,
`name`, `country_code` and `country_name` fields are exactly those of the
input record; enrichment only adds `youtube_url` and `channel_id`. -/
theorem enricher_preserves_input_fields (record : ArtistRecord)
    (resp : Nat → HttpResult) (e : EnrichedRecord)
    (h : fetch_for_artist record resp = some e) :
    e.mbid = record.mbid ∧ e.name = record.name ∧
      e.country_code = record.country_code ∧
      e.country_name = record.country_name := by
  unfold fetch_for_artist at h
  rcases hs : safe_request resp with _ | d <;> rw [hs] at h
  · exact absurd h (by simp)
  · split at h
    · exact absurd h (by simp)
    · split at h
      · exact absurd h (by simp)
      · split at h
        · exact absurd h (by simp)
        · rw [Option.some.injEq] at h
          subst h
          exact ⟨rfl, rfl, rfl, rfl⟩

/-- Witness for C9: one record fetched through a single successful response. -/
theorem enricher_preserves_input_fields_witness :
    (⟨"mmmmm", "n", "US", "United States of America",
        "https://youtube.com/channel/UC27nr9wCiLTErKHK94VG3UA",
        "UC27nr9wCiLTErKHK94VG3UA"⟩ : EnrichedRecord).mbid = "mmmmm" ∧
      (⟨"mmmmm", "n", "US", "United States of America",
        "https://youtube.com/channel/UC27nr9wCiLTErKHK94VG3UA",
        "UC27nr9wCiLTErKHK94VG3UA"⟩ : EnrichedRecord).name = "n" ∧
      (⟨"mmmmm", "n", "US", "United States of America",
        "https://youtube.com/channel/UC27nr9wCiLTErKHK94VG3UA",
        "UC27nr9wCiLTErKHK94VG3UA"⟩ : EnrichedRecord).country_code = "US" ∧
      (⟨"mmmmm", "n", "US", "United States of America",
        "https://youtube.com/channel/UC27nr9wCiLTErKHK94VG3UA",
        "UC27nr9wCiLTErKHK94VG3UA"⟩ : EnrichedRecord).country_name =
        "United States of America" :=
  enricher_preserves_input_fields
    ⟨"mmmmm", "n", "US", "United States of America"⟩
    (fun _ =>
      .success ⟨true, [some "https://youtube.com/channel/UC27nr9wCiLTErKHK94VG3UA"]⟩)
    ⟨"mmmmm", "n", "US", "United States of America",
      "https://youtube.com/channel/UC27nr9wCiLTErKHK94VG3UA",
      "UC27nr9wCiLTErKHK94VG3UA"⟩
    (by decide)

/-! Deduplication lemmas for C5. -/

/-- The keys of the dict after an upsert: unchanged for an existing key,
extended by the new key otherwise. -/
lemma dictUpsert_map_keys (d : List ArtistRecord) (r : ArtistRecord) :
    (dictUpsert d r).map (fun x => x.mbid) =
      if d.any (fun x => x.mbid = r.mbid) then d.map (fun x => x.mbid)
      else d.map (fun x => x.mbid) ++ [r.mbid] := by
  unfold dictUpsert
  split
  · rw [List.map_map]
    apply List.map_congr_left
    intro a _
    by_cases ha : a.mbid = r.mbid <;> simp [ha]
  · simp

/-- Upserting preserves key distinctness. -/
lemma keysNodup_dictUpsert {d : List ArtistRecord} (r : ArtistRecord)
    (h : keysNodup d) : keysNodup (dictUpsert d r) := by
  unfold keysNodup at *
  rw [dictUpsert_map_keys]
  split
  · exact h
  · rename_i hAny
    rw [List.nodup_append]
    refine ⟨h, List.nodup_singleton _, ?_⟩
    intro a ha hb
    rw [List.mem_singleton] at hb
    subst hb
    rw [List.mem_map] at ha
    obtain ⟨x, hx, hxe⟩ := ha
    exact hAny (by simp [List.any_eq_true]; exact ⟨x, hx, hxe⟩)

/-- Replacing the unique entry holding a key filters to exactly the
replacement. -/
lemma filter_replace_of_any (t : List ArtistRecord) (r : ArtistRecord)
    (h : keysNodup t) (hAny : t.any (fun x => x.mbid = r.mbid) = true) :
    (t.map (fun x => if x.mbid = r.mbid then r else x)).filter
        (fun x => x.mbid = r.mbid) = [r] := by
  induction t with
  | nil => simp at hAny
  | cons x t ih =>
    have hnd : keysNodup t := by
      unfold keysNodup at h ⊢
      simpa using h.of_cons
    by_cases hx : x.mbid = r.mbid
    · have hmem : ∀ y ∈ t, y.mbid ≠ r.mbid := by
        intro y hy hye
        unfold keysNodup at h
        rw [List.map_cons, List.nodup_cons] at h
        exact h.1 (by rw [List.mem_map]; exact ⟨y, hy, by rw [hye, hx]⟩)
      have htail :
          (t.map (fun x => if x.mbid = r.mbid then r else x)).filter
            (fun x => x.mbid = r.mbid) = [] := by
        rw [List.filter_eq_nil_iff]
        intro a ha
        rw [List.mem_map] at ha
        obtain ⟨y, hy, hye⟩ := ha
        rw [if_neg (hmem y hy)] at hye
        subst hye
        simpa using hmem y hy
      simp [hx, htail]
    · have hAny' : t.any (fun x => x.mbid = r.mbid) = true := by
        rcases List.any_eq_true.mp hAny with ⟨y, hy, hye⟩
        rcases List.mem_cons.mp hy with rfl | hy'
        · exact absurd (of_decide_eq_true hye) hx
        · exact List.any_eq_true.mpr ⟨y, hy', hye⟩
      simp only [List.map_cons, if_neg hx]
      rw [List.filter_cons_of_neg (by simpa using hx)]
      exact ih hnd hAny'

/-- Replacement under a different key leaves a key's filter unchanged. -/
lemma filter_replace_of_ne (t : List ArtistRecord) (r : ArtistRecord)
    (m : String) (hm : ¬r.mbid = m) :
    (t.map (fun x => if x.mbid = r.mbid then r else x)).filter
        (fun x => x.mbid = m) = t.filter (fun x => x.mbid = m) := by
  induction t with
  | nil => rfl
  | cons x t ih =>
    by_cases hx : x.mbid = r.mbid
    · have hxm : ¬x.mbid = m := by rw [hx]; exact hm
      simp only [List.map_cons, if_pos hx]
      rw [List.filter_cons_of_neg (by simpa using hm),
        List.filter_cons_of_neg (by simpa using hxm)]
      exact ih
    · simp only [List.map_cons, if_neg hx]
      by_cases hxm : x.mbid = m
      · rw [List.filter_cons_of_pos (by simpa using hxm),
          List.filter_cons_of_pos (by simpa using hxm), ih]
      · rw [List.filter_cons_of_neg (by simpa using hxm),
          List.filter_cons_of_neg (by simpa using hxm), ih]

/-- How one upsert acts on the entries holding a given key. -/
lemma filter_dictUpsert (d : List ArtistRecord) (r : ArtistRecord) (m : String)
    (h : keysNodup d) :
    (dictUpsert d r).filter (fun x => x.mbid = m) =
      if r.mbid = m then [r] else d.filter (fun x => x.mbid = m) := by
  unfold dictUpsert
  by_cases hAny : d.any (fun x => x.mbid = r.mbid) = true
  · rw [if_pos hAny]
    by_cases hm : r.mbid = m
    · rw [if_pos hm]
      subst hm
      exact filter_replace_of_any d r h hAny
    · rw [if_neg hm]
      exact filter_replace_of_ne d r m hm
  · rw [if_neg hAny]
    by_cases hm : r.mbid = m
    · rw [if_pos hm]
      have hnil : d.filter (fun x => x.mbid = m) = [] := by
        rw [List.filter_eq_nil_iff]
        intro a ha hae
        exact hAny (List.any_eq_true.mpr ⟨a, ha, by
          subst hm
          simpa using hae⟩)
      rw [List.filter_append, hnil]
      simp [hm]
    · rw [if_neg hm, List.filter_append]
      simp [hm]

/-- The last element of a non-empty list exists. -/
lemma getLast?_cons_ne_none {α : Type} (a : α) (l : List α) :
    (a :: l).getLast? ≠ none := by
  induction l generalizing a with
  | nil => simp
  | cons b t ih =>
    rw [List.getLast?_cons_cons]
    exact ih b

/-- The dict fold keeps, for every key, exactly the last record inserted under
that key (or the accumulator's entry when the key never occurs). -/
lemma foldl_dictUpsert_filter (rs : List ArtistRecord) :
    ∀ (d : List ArtistRecord) (m : String), keysNodup d →
      (rs.foldl dictUpsert d).filter (fun x => x.mbid = m) =
        ((rs.filter (fun x => x.mbid = m)).getLast?).elim
          (d.filter (fun x => x.mbid = m)) (fun x => [x]) := by
  induction rs with
  | nil => intro d m _; simp
  | cons r rs ih =>
    intro d m hd
    rw [List.foldl_cons, ih (dictUpsert d r) m (keysNodup_dictUpsert r hd)]
    by_cases hm : r.mbid = m
    · rw [List.filter_cons_of_pos (by simpa using hm)]
      cases hfe : rs.filter (fun x => x.mbid = m) with
      | nil => simp [Option.elim, filter_dictUpsert d r m hd, hm]
      | cons a l =>
        rw [List.getLast?_cons_cons]
        cases hgl : (a :: l).getLast? with
        | none => exact absurd hgl (getLast?_cons_ne_none a l)
        | some x => rfl
    · rw [List.filter_cons_of_neg (by simpa using hm),
        filter_dictUpsert d r m hd, if_neg hm]

/-- Claim C5: for every sequence of rows loaded across all files (in load
order) and every identifier, the set `load_all_artists` returns holds exactly
one record per identifier that occurs, namely the last loaded record carrying
it — last write wins, no merging. -/
theorem load_dedup_last_write_wins (folder_exists : Bool)
    (files : List FileData) (out : List ArtistRecord)
    (h : load_all_artists folder_exists files = .ok out) (m : String) :
    out.filter (fun r => r.mbid = m) =
      (((files.flatMap fileRecords).filter (fun r => r.mbid = m)).getLast?).toList := by
  have hout : out = loaded_records files := by
    unfold load_all_artists at h
    cases folder_exists with
    | false => simp at h
    | true => simpa using h.symm
  subst hout
  unfold loaded_records dedupByMbid
  rw [foldl_dictUpsert_filter (files.flatMap fileRecords) [] m
    (by unfold keysNodup; simp)]
  cases (( (files.flatMap fileRecords)).filter (fun r => r.mbid = m)).getLast? <;>
    simp [Option.elim, Option.toList]

/-- Witness for C5: two files, the second holding a duplicate of the first
file's identifier; the surviving record is the second file's. -/
theorem load_dedup_last_write_wins_witness :
    (loaded_records
        [⟨true, true, true, true, false, [⟨"aaaaa", "x", ""⟩]⟩,
         ⟨true, true, true, true, false, [⟨"aaaaa", "y", ""⟩]⟩]).filter
      (fun r => r.mbid = "aaaaa") = [⟨"aaaaa", "y", "", ""⟩] := by
  have := load_dedup_last_write_wins true
    [⟨true, true, true, true, false, [⟨"aaaaa", "x", ""⟩]⟩,
     ⟨true, true, true, true, false, [⟨"aaaaa", "y", ""⟩]⟩]
    (loaded_records
      [⟨true, true, true, true, false, [⟨"aaaaa", "x", ""⟩]⟩,
       ⟨true, true, true, true, false, [⟨"aaaaa", "y", ""⟩]⟩]) rfl "aaaaa"
  rw [this]
  decide

/-- Claim C10: a run with zero enriched records writes no output file at all
(the existing file is untouched, modelled by the absent write action), and
the output file, header first, is written exactly when at least one enriched
record exists and the write succeeds. -/
theorem output_written_iff_results (files : List FileData)
    (net : String → Nat → HttpResult) (write_ok : Bool) :
    (enrich_results files net = [] →
      main_threaded true files net write_ok = .ok none) ∧
    (enrich_results files net ≠ [] → write_ok = true →
      main_threaded true files net write_ok =
        .ok (some (csv_header :: (enrich_results files net).map enriched_to_row))) := by
  constructor
  · intro h
    unfold enrich_results at h
    unfold main_threaded load_all_artists
    by_cases hr : loaded_records files = []
    · simp [hr]
    · simp [hr, h]
  · intro h hw
    subst hw
    have hr : loaded_records files ≠ [] := by
      intro h0
      apply h
      unfold enrich_results
      rw [h0]
      rfl
    unfold enrich_results at h
    unfold main_threaded load_all_artists enrich_results
    simp [hr, h]

/-- Witness for C10: an empty input yields no write; one enriched record
yields the header plus its row. -/
theorem output_written_iff_results_witness :
    main_threaded true [] (fun _ _ => .failure) true = .ok none ∧
      main_threaded true
          [⟨true, true, true, true, false, [⟨"mmmmm", "n", ""⟩]⟩]
          (fun _ _ =>
            .success ⟨true, [some "https://youtube.com/channel/UC27nr9wCiLTErKHK94VG3UA"]⟩)
          true =
        .ok (some (csv_header ::
          (enrich_results
            [⟨true, true, true, true, false, [⟨"mmmmm", "n", ""⟩]⟩]
            (fun _ _ =>
              .success ⟨true,
                [some "https://youtube.com/channel/UC27nr9wCiLTErKHK94VG3UA"]⟩)).map
            enriched_to_row)) :=
  ⟨(output_written_iff_results [] (fun _ _ => .failure) true).1 rfl,
    (output_written_iff_results
      [⟨true, true, true, true, false, [⟨"mmmmm", "n", ""⟩]⟩]
      (fun _ _ =>
        .success ⟨true, [some "https://youtube.com/channel/UC27nr9wCiLTErKHK94VG3UA"]⟩)
      true).2 (by decide) rfl⟩

/-- Counterexample to claim C8 as stated: with the input folder present, one
valid record enriched, and the output write failing, the threaded run aborts
with an uncaught exception — so folder absence is not the only abort
condition. -/
theorem threaded_abort_on_write_failure :
    main_threaded true [⟨true, true, true, true, false, [⟨"mmmmm", "n", ""⟩]⟩]
        (fun _ _ => .success ⟨true, [some "https://youtube.com/user/foo"]⟩)
        false =
      .error .outputWriteFailed := rfl

/-- Claim C8 (amended): the threaded run aborts exactly when the input folder
is missing or when the final output write fails with at least one enriched
record (the unguarded `open`/`write` block); every other failure — unreadable
file, missing column, fetch failure — is logged and the run continues.  The
serial run ends early exactly when its folder is missing; in particular sink
write failures never affect it, since `supabase_insert` swallows every
error. -/
theorem batch_abort_characterization (fe : Bool) (files : List FileData)
    (net : String → Nat → HttpResult) (write_ok : Bool) (sfe : Bool)
    (sfiles : List SerialFile) (snet : String → Option (List (Option String))) :
    (run_aborts (main_threaded fe files net write_ok) = true ↔
      fe = false ∨ (write_ok = false ∧ enrich_results files net ≠ [])) ∧
    ((main_serial sfe sfiles snet).isNone = true ↔ sfe = false) := by
  constructor
  · cases fe with
    | false => simp [main_threaded, load_all_artists, run_aborts]
    | true =>
      unfold main_threaded load_all_artists enrich_results
      by_cases hr : loaded_records files = []
      · have : (loaded_records files).filterMap
            (fun r => fetch_for_artist r (net r.mbid)) = [] := by
          rw [hr]; rfl
        simp [hr, run_aborts, this]
      · by_cases hres : (loaded_records files).filterMap
            (fun r => fetch_for_artist r (net r.mbid)) = []
        · simp [hr, hres, run_aborts]
        · cases write_ok with
          | true => simp [hr, hres, run_aborts]
          | false => simp [hr, hres, run_aborts]
  · cases sfe with
    | false => simp [main_serial]
    | true => simp [main_serial]

/-- Counterexample to claim C1 as stated: a relation list holding only a
user-alias URL (empty extraction) still yields an enriched record — with an
empty `channel_id` — and the record reaches the output set of the threaded
run, because `fetch_for_artist` never checks the extracted identifier. -/
theorem fetch_emits_empty_channel_id :
    main_threaded true [⟨true, true, true, true, false, [⟨"mmmmm", "n", ""⟩]⟩]
        (fun _ _ => .success ⟨true, [some "https://youtube.com/user/foo"]⟩)
        true =
      .ok (some [csv_header,
        ["mmmmm", "n", "", "", "https://youtube.com/user/foo", ""]]) ∧
      parse_youtube_channel_id "https://youtube.com/user/foo" = "" :=
  ⟨rfl, rfl⟩

/-- Claim C1 (amended): the serial variant produces output for a row only when
the extracted channel identifier is non-empty, but the threaded
`fetch_for_artist` produces an EnrichedRecord whenever a platform URL is found
in the relations, copying whatever the extractor returned — including the
empty identifier. -/
theorem enricher_output_conditions :
    (∀ (record : ArtistRecord) (resp : Nat → HttpResult) (e : EnrichedRecord),
        fetch_for_artist record resp = some e →
        e.youtube_url ≠ "" ∧
          e.channel_id = parse_youtube_channel_id e.youtube_url) ∧
    (∀ (net : String → Option (List (Option String))) (row : SerialRow),
        fetch_youtube_using_mbid (net (serial_mbid row)) = "" →
        serial_row_process net row = none) := by
  constructor
  · intro record resp e h
    unfold fetch_for_artist at h
    rcases hs : safe_request resp with _ | d <;> rw [hs] at h
    · exact absurd h (by simp)
    · split at h
      · exact absurd h (by simp)
      · split at h
        · exact absurd h (by simp)
        · split at h
          · exact absurd h (by simp)
          · rename_i hurl
            rw [Option.some.injEq] at h
            subst h
            exact ⟨hurl, rfl⟩
  · intro net row h
    unfold serial_row_process
    split
    · rfl
    · rfl

/-- Witness for C1 (amended): the user-alias relation produces a record whose
URL is non-empty while its channel identifier is the empty extraction. -/
theorem enricher_output_conditions_witness :
    (⟨"mmmmm", "n", "", "", "https://youtube.com/user/foo", ""⟩ :
        EnrichedRecord).youtube_url ≠ "" ∧
      (⟨"mmmmm", "n", "", "", "https://youtube.com/user/foo", ""⟩ :
        EnrichedRecord).channel_id =
        parse_youtube_channel_id
          (⟨"mmmmm", "n", "", "", "https://youtube.com/user/foo", ""⟩ :
            EnrichedRecord).youtube_url :=
  enricher_output_conditions.1 ⟨"mmmmm", "n", "", ""⟩
    (fun _ => .success ⟨true, [some "https://youtube.com/user/foo"]⟩)
    ⟨"mmmmm", "n", "", "", "https://youtube.com/user/foo", ""⟩ (by decide)

/-- Counterexample to claim C7 as stated: the serial driver does not apply any
minimum length to the identifier — a two-character identifier (shorter than
the threaded loader's minimum of 5) is fetched and contributes a payload. -/
theorem serial_driver_keeps_short_mbid :
    main_serial true [⟨true, [⟨some "Name", some "ab", none, ""⟩]⟩]
        (fun _ => some [some "https://youtube.com/channel/UCaaaaaaaaaaaaaaaaaaaaaa"]) =
      some ([⟨some "Name", "ab", "UCaaaaaaaaaaaaaaaaaaaaaa", "", ""⟩], 1) ∧
      ("ab" : String).length < 5 := by
  constructor
  · decide
  · decide

/-- Claim C7 (amended): the threaded loader keeps a row exactly when its
stripped identifier has length at least 5 (a missing identifier strips to the
empty string and is skipped); the serial driver skips a row only when its
identifier resolves to the empty value, applying no minimum length, and
processes every row whose identifier is non-empty when the fetch yields a
channel. -/
theorem row_skip_characterization :
    (∀ (hasCountry : Bool) (row : RawRow),
        (parseRow hasCountry row).isSome = true ↔
          5 ≤ (String.mk (pyStripBy isPyWs row.mbid.data)).length) ∧
    (∀ (net : String → Option (List (Option String))) (row : SerialRow),
        serial_mbid row = "" → serial_row_process net row = none) ∧
    (∀ (net : String → Option (List (Option String))) (row : SerialRow),
        serial_mbid row ≠ "" →
        fetch_youtube_using_mbid (net (serial_mbid row)) ≠ "" →
        (serial_row_process net row).isSome = true) := by
  refine ⟨?_, ?_, ?_⟩
  · intro hasCountry row
    by_cases hcond : String.mk (pyStripBy isPyWs row.mbid.data) = "" ∨
        (String.mk (pyStripBy isPyWs row.mbid.data)).length < 5
    · unfold parseRow
      rw [if_pos hcond]
      constructor
      · intro hs
        exact absurd hs (by simp)
      · intro hlen
        exfalso
        rcases hcond with he | hl
        · rw [he] at hlen
          exact absurd hlen (by decide)
        · exact absurd hlen (Nat.not_le_of_lt hl)
    · unfold parseRow
      rw [if_neg hcond]
      push_neg at hcond
      constructor
      · intro _
        exact hcond.2
      · intro _
        rfl
  · intro net row h
    unfold serial_row_process
    rw [if_pos h]
  · intro net row h hf
    unfold serial_row_process
    rw [if_neg h, if_neg hf]
    rfl

/-- Witness for C7 (amended): a five-character identifier is kept by the
threaded loader, and the short serial row is processed. -/
theorem row_skip_characterization_witness :
    (parseRow false ⟨"mmmmm", "n", ""⟩).isSome = true ∧
      (serial_row_process
          (fun _ => some [some "https://youtube.com/channel/UCaaaaaaaaaaaaaaaaaaaaaa"])
          ⟨some "Name", some "ab", none, ""⟩).isSome = true :=
  ⟨(row_skip_characterization.1 false ⟨"mmmmm", "n", ""⟩).mpr (by decide),
    row_skip_characterization.2.2
      (fun _ => some [some "https://youtube.com/channel/UCaaaaaaaaaaaaaaaaaaaaaa"])
      ⟨some "Name", some "ab", none, ""⟩ (by decide) (by decide)⟩

/-- Counterexample to claim C4 as stated: a relation whose resource URL has
the marker only inside its path — its host (`example.com`) contains no
recognized marker — is nevertheless selected, because the code tests the
marker against the whole URL string, not the host.  The claim instead
requires an empty outcome for this list. -/
theorem youtube_match_ignores_host_boundary :
    select_youtube_url [some "https://example.com/a-youtube.com-b"] =
        "https://example.com/a-youtube.com-b" ∧
      containsSub "youtube.com".data
        (lowerList (urlHost "https://example.com/a-youtube.com-b")) = false ∧
      containsSub "youtu.be".data
        (lowerList (urlHost "https://example.com/a-youtube.com-b")) = false ∧
      containsSub "music.youtube.com".data
        (lowerList (urlHost "https://example.com/a-youtube.com-b")) = false :=
  ⟨rfl, rfl, rfl, rfl⟩

/-- Claim C4 (amended): both fetchers select the first relation in list order
whose resource URL — as a whole string, lowercased in the threaded variant and
raw in the serial variant, not just its host — contains a platform marker;
they stop at that entry regardless of what follows, and yield the empty
outcome when no entry matches. -/
theorem relation_scan_first_match :
    (∀ (pre rest : List (Option String)) (r : String),
        (∀ x ∈ pre, rel_matches x = false) → rel_matches (some r) = true →
        select_youtube_url (pre ++ some r :: rest) = r) ∧
    (∀ l : List (Option String),
        (∀ x ∈ l, rel_matches x = false) → select_youtube_url l = "") ∧
    (∀ (pre rest : List (Option String)) (link : String),
        (∀ x ∈ pre, serial_link_matches x = false) →
        serial_link_matches (some link) = true →
        fetch_youtube_scan (pre ++ some link :: rest) = extract_channel_id link) ∧
    (∀ l : List (Option String),
        (∀ x ∈ l, serial_link_matches x = false) → fetch_youtube_scan l = "") := by
  refine ⟨?_, ?_, ?_, ?_⟩
  · intro pre rest r hpre hr
    induction pre with
    | nil =>
      show select_youtube_url (some r :: rest) = r
      unfold select_youtube_url
      rw [if_pos hr]
    | cons x pre ih =>
      have hx := hpre x (by simp)
      have hpre' : ∀ y ∈ pre, rel_matches y = false := by
        intro y hy
        exact hpre y (by simp [hy])
      cases x with
      | none => exact ih hpre'
      | some s =>
        show select_youtube_url (some s :: (pre ++ some r :: rest)) = r
        unfold select_youtube_url
        rw [if_neg (by rw [hx]; exact Bool.false_ne_true)]
        exact ih hpre'
  · intro l hl
    induction l with
    | nil => rfl
    | cons x l ih =>
      have hx := hl x (by simp)
      have hl' : ∀ y ∈ l, rel_matches y = false := by
        intro y hy
        exact hl y (by simp [hy])
      cases x with
      | none => exact ih hl'
      | some s =>
        show select_youtube_url (some s :: l) = ""
        unfold select_youtube_url
        rw [if_neg (by rw [hx]; exact Bool.false_ne_true)]
        exact ih hl'
  · intro pre rest link hpre hlink
    induction pre with
    | nil =>
      show fetch_youtube_scan (some link :: rest) = extract_channel_id link
      unfold fetch_youtube_scan
      rw [if_pos (by simpa [serial_link_matches] using hlink)]
    | cons x pre ih =>
      have hx := hpre x (by simp)
      have hpre' : ∀ y ∈ pre, serial_link_matches y = false := by
        intro y hy
        exact hpre y (by simp [hy])
      cases x with
      | none => exact ih hpre'
      | some s =>
        show fetch_youtube_scan (some s :: (pre ++ some link :: rest)) =
          extract_channel_id link
        unfold fetch_youtube_scan
        rw [if_neg (by
          simp only [serial_link_matches] at hx
          rw [hx]
          exact Bool.false_ne_true)]
        exact ih hpre'
  · intro l hl
    induction l with
    | nil => rfl
    | cons x l ih =>
      have hx := hl x (by simp)
      have hl' : ∀ y ∈ l, serial_link_matches y = false := by
        intro y hy
        exact hl y (by simp [hy])
      cases x with
      | none => exact ih hl'
      | some s =>
        show fetch_youtube_scan (some s :: l) = ""
        unfold fetch_youtube_scan
        rw [if_neg (by
          simp only [serial_link_matches] at hx
          rw [hx]
          exact Bool.false_ne_true)]
        exact ih hl'

/-- Witness for C4 (amended): a non-matching relation, then a channel URL,
then a further matching relation that is ignored. -/
theorem relation_scan_first_match_witness :
    select_youtube_url
        [some "https://twitter.com/foo",
          some "https://youtube.com/channel/UC27nr9wCiLTErKHK94VG3UA",
          some "https://youtube.com/other"] =
      "https://youtube.com/channel/UC27nr9wCiLTErKHK94VG3UA" :=
  relation_scan_first_match.1 [some "https://twitter.com/foo"]
    [some "https://youtube.com/other"]
    "https://youtube.com/channel/UC27nr9wCiLTErKHK94VG3UA"
    (by decide) (by decide)

/-- Counterexample to claim C2 as stated: on `/channel/x` the serial
extractor returns the non-empty segment `x` even though the path has no
segment matching the spec's opaque-identifier pattern (two-letter prefix plus
20 or more identifier characters), under which the claim requires the empty
string. -/
theorem extract_accepts_nonconforming_segment :
    extract_channel_id "https://youtube.com/channel/x" = "x" ∧
      spec_positive_shape "https://youtube.com/channel/x" = false :=
  ⟨rfl, rfl⟩

/-- Claim C2 (amended): `parse_youtube_channel_id` returns a non-empty result
exactly when the first segment of the `/`-stripped path lowercases to
`channel` (case-insensitively, not literal equality) and the second segment
matches the identifier pattern, returning that segment; `extract_channel_id`
returns a non-empty result exactly when the raw path split contains a segment
literally equal to `channel` whose first occurrence is followed by a
non-empty segment, returning that following segment with no pattern check at
all.  User-alias, handle and all other shapes yield the empty string in
both. -/
theorem extractor_characterization (url : String) :
    (parse_youtube_channel_id url ≠ "" ↔
      url ≠ "" ∧ ∃ nl p p0 p1 rest, pyUrlparse url = some (nl, p) ∧
        pySplitChar '/' (pyStripBy (fun c => c = '/') p) = p0 :: p1 :: rest ∧
        lowerList p0 = "channel".data ∧ isUCIdCh p1 = true) ∧
    (∀ nl p p0 p1 rest, pyUrlparse url = some (nl, p) →
        pySplitChar '/' (pyStripBy (fun c => c = '/') p) = p0 :: p1 :: rest →
        lowerList p0 = "channel".data → isUCIdCh p1 = true → url ≠ "" →
        parse_youtube_channel_id url = String.mk p1) ∧
    (extract_channel_id url ≠ "" ↔
      url ≠ "" ∧ ∃ nl p idx seg rest, pyUrlparse url = some (nl, p) ∧
        listIndexOf "channel".data (pySplitChar '/' p) = some idx ∧
        (pySplitChar '/' p).drop (idx + 1) = seg :: rest ∧ seg ≠ []) ∧
    (∀ nl p idx seg rest, pyUrlparse url = some (nl, p) →
        listIndexOf "channel".data (pySplitChar '/' p) = some idx →
        (pySplitChar '/' p).drop (idx + 1) = seg :: rest → url ≠ "" →
        extract_channel_id url = String.mk seg) := by
  have parse_of : ∀ (nl p p0 p1 : List Char) (rest : List (List Char)),
      pyUrlparse url = some (nl, p) →
      pySplitChar '/' (pyStripBy (fun c => c = '/') p) = p0 :: p1 :: rest →
      lowerList p0 = "channel".data → isUCIdCh p1 = true → url ≠ "" →
      parse_youtube_channel_id url = String.mk p1 := by
    intro nl p p0 p1 rest hp hsp hlow huc hu
    unfold parse_youtube_channel_id
    rw [if_neg hu, hp]
    simp only [hsp]
    rw [if_pos ⟨hlow, huc⟩]
  have extract_of : ∀ (nl p : List Char) (idx : Nat) (seg : List Char)
      (rest : List (List Char)),
      pyUrlparse url = some (nl, p) →
      listIndexOf "channel".data (pySplitChar '/' p) = some idx →
      (pySplitChar '/' p).drop (idx + 1) = seg :: rest → url ≠ "" →
      extract_channel_id url = String.mk seg := by
    intro nl p idx seg rest hp hidx hdrop hu
    unfold extract_channel_id
    rw [if_neg hu, hp]
    simp [hidx, hdrop]
  refine ⟨?_, parse_of, ?_, extract_of⟩
  · constructor
    · intro hne
      by_cases hu : url = ""
      · exfalso
        apply hne
        subst hu
        rfl
      refine ⟨hu, ?_⟩
      cases hp : pyUrlparse url with
      | none =>
        exfalso
        apply hne
        unfold parse_youtube_channel_id
        rw [if_neg hu, hp]
      | some pr =>
        cases hsp : pySplitChar '/' (pyStripBy (fun c => c = '/') pr.2) with
        | nil =>
          exfalso
          apply hne
          unfold parse_youtube_channel_id
          rw [if_neg hu, hp]
          simp [hsp]
        | cons p0 tail =>
          cases tail with
          | nil =>
            exfalso
            apply hne
            unfold parse_youtube_channel_id
            rw [if_neg hu, hp]
            simp [hsp]
          | cons p1 rest =>
            by_cases hcond : lowerList p0 = "channel".data ∧ isUCIdCh p1 = true
            · exact ⟨pr.1, pr.2, p0, p1, rest, rfl, hsp, hcond.1, hcond.2⟩
            · exfalso
              apply hne
              unfold parse_youtube_channel_id
              rw [if_neg hu, hp]
              simp only [hsp]
              rw [if_neg hcond]
    · rintro ⟨hu, nl, p, p0, p1, rest, hp, hsp, hlow, huc⟩
      rw [parse_of nl p p0 p1 rest hp hsp hlow huc hu, Ne, strMk_eq_empty_iff]
      exact isUCIdCh_ne_nil huc
  · constructor
    · intro hne
      by_cases hu : url = ""
      · exfalso
        apply hne
        subst hu
        rfl
      refine ⟨hu, ?_⟩
      cases hp : pyUrlparse url with
      | none =>
        exfalso
        apply hne
        unfold extract_channel_id
        rw [if_neg hu, hp]
      | some pr =>
        cases hidx : listIndexOf "channel".data (pySplitChar '/' pr.2) with
        | none =>
          exfalso
          apply hne
          unfold extract_channel_id
          rw [if_neg hu, hp]
          simp [hidx]
        | some idx =>
          cases hdrop : (pySplitChar '/' pr.2).drop (idx + 1) with
          | nil =>
            exfalso
            apply hne
            unfold extract_channel_id
            rw [if_neg hu, hp]
            simp [hidx, hdrop]
          | cons seg tail =>
            refine ⟨pr.1, pr.2, idx, seg, tail, rfl, hidx, hdrop, ?_⟩
            intro hseg
            apply hne
            rw [extract_of pr.1 pr.2 idx seg tail hp hidx hdrop hu, hseg]
    · rintro ⟨hu, nl, p, idx, seg, rest, hp, hidx, hdrop, hseg⟩
      rw [extract_of nl p idx seg rest hp hidx hdrop hu, Ne, strMk_eq_empty_iff]
      exact hseg

/-- Witness for C2 (amended): a canonical channel URL is accepted by the
threaded extractor, which returns the identifier segment unchanged. -/
theorem extractor_characterization_witness :
    parse_youtube_channel_id
        "https://music.youtube.com/channel/UC27nr9wCiLTErKHK94VG3UA" =
      "UC27nr9wCiLTErKHK94VG3UA" :=
  (extractor_characterization
      "https://music.youtube.com/channel/UC27nr9wCiLTErKHK94VG3UA").2.1
    "music.youtube.com".data "/channel/UC27nr9wCiLTErKHK94VG3UA".data
    "channel".data "UC27nr9wCiLTErKHK94VG3UA".data []
    (by decide) (by decide) (by decide) (by decide) (by decide)

end HajdeMusic
